import Mathlib

/-!
Verification of the scroll-to-camera timeline engine of the repository.

The data model and the operations are embedded from the TypeScript source:

 * src/src/config/scenes.config.ts        : SceneConfig, SCENE_TIMELINE
 * src/src/3d/controllers/CameraController.ts : useCameraController and its
   scroll-progress handler (segment resolution via Array.prototype.findIndex
   and the scene-change callback)
 * src/src/hooks/useScrollAnimation.ts    : the legacy threshold chain
 * src/unnamed/part_003                   : easing table, clamp

Scroll progress values are modelled as exact rationals; the easeOutElastic
easing, which uses transcendental functions, is modelled over the reals.
-/

set_option maxHeartbeats 1000000

/-- Camera keyframe from scenes.config.ts: position, rotation (Euler tuple)
and an optional field of view. -/
structure CameraKeyframe where
  position : ℚ × ℚ × ℚ
  rotation : ℚ × ℚ × ℚ
  fov : Option ℚ
deriving DecidableEq

/-- One scene segment from scenes.config.ts. The source nests the two
keyframes in a camera record with fields start and end; here they are the
fields cameraStart and cameraEnd. -/
structure SceneConfig where
  id : String
  name : String
  scrollStart : ℚ
  scrollEnd : ℚ
  duration : ℚ
  cameraStart : CameraKeyframe
  cameraEnd : CameraKeyframe
  easing : String
  description : String
deriving DecidableEq

/-- The shipped SCENE_TIMELINE constant of scenes.config.ts, value for value. -/
def SCENE_TIMELINE : List SceneConfig :=
  [ { id := "hero"
    , name := "Hero Introduction"
    , scrollStart := 0
    , scrollEnd := 0.2
    , duration := 1.2
    , cameraStart := { position := (0, 0, 5), rotation := (0, 0, 0), fov := none }
    , cameraEnd := { position := (0, 0, 5), rotation := (0, 0, 0), fov := none }
    , easing := "power1.inOut"
    , description := "Static establishing shot - let the model speak for itself" }
  , { id := "gesture-flow"
    , name := "Gesture to Voice Flow"
    , scrollStart := 0.2
    , scrollEnd := 0.5
    , duration := 2.0
    , cameraStart := { position := (0, 0, 5), rotation := (0, 0, 0), fov := none }
    , cameraEnd := { position := (0, 0.2, 2.8), rotation := (0, 0.08, 0), fov := none }
    , easing := "power1.inOut"
    , description := "Slow dolly in - intentional approach to show sensor detail" }
  , { id := "technology"
    , name := "Technology Architecture"
    , scrollStart := 0.5
    , scrollEnd := 0.7
    , duration := 1.5
    , cameraStart := { position := (0, 0.2, 2.8), rotation := (0, 0.08, 0), fov := none }
    , cameraEnd := { position := (2.5, 1.5, 4), rotation := (-0.15, -0.25, 0), fov := none }
    , easing := "power1.inOut"
    , description := "Heavier orbit movement - reveals the full system" }
  , { id := "impact"
    , name := "Social Impact"
    , scrollStart := 0.7
    , scrollEnd := 0.9
    , duration := 1.3
    , cameraStart := { position := (2.5, 1.5, 4), rotation := (-0.15, -0.25, 0), fov := none }
    , cameraEnd := { position := (0, 0.8, 6), rotation := (-0.05, 0, 0), fov := none }
    , easing := "power1.out"
    , description := "Pull back with stillness - moment of calm for the message" }
  , { id := "closing"
    , name := "Call to Action"
    , scrollStart := 0.9
    , scrollEnd := 1.0
    , duration := 0.8
    , cameraStart := { position := (0, 0.8, 6), rotation := (-0.05, 0, 0), fov := none }
    , cameraEnd := { position := (0, 0.3, 4.5), rotation := (0, 0, 0), fov := none }
    , easing := "power1.inOut"
    , description := "Final resting position - confident ending" }
  ]

/-- JavaScript Array.prototype.findIndex: index of the first element
satisfying the predicate, scanning from index i, or -1 when none does. -/
def jsFindIndexFrom (pred : α → Bool) : List α → ℤ → ℤ
  | [], _ => -1
  | a :: as, i => if pred a then i else jsFindIndexFrom pred as (i + 1)

/-- JavaScript Array.prototype.findIndex starting at index 0. -/
def jsFindIndex (pred : α → Bool) (l : List α) : ℤ :=
  jsFindIndexFrom pred l 0

/-- The findIndex predicate of CameraController.ts line 60:
progress at or past scrollStart and strictly before scrollEnd. -/
def scenePredicate (progress : ℚ) (scene : SceneConfig) : Bool :=
  decide (progress ≥ scene.scrollStart) && decide (progress < scene.scrollEnd)

/-- CameraController.ts lines 59-62: the currentScene index computed in the
onUpdate handler (-1 when no segment matches). -/
def currentScene (timeline : List SceneConfig) (progress : ℚ) : ℤ :=
  jsFindIndex (scenePredicate progress) timeline

/-- CameraController.ts lines 63-65: the scene-change invocations made by a
single onUpdate call: one call with the 1-indexed scene whenever
currentScene is not -1, none otherwise. -/
def onUpdateEvents (timeline : List SceneConfig) (progress : ℚ) : List ℤ :=
  if currentScene timeline progress = -1 then []
  else [currentScene timeline progress + 1]

/-- The scene-change invocations accumulated over a sequence of progress
updates: each onUpdate call is independent, so the event lists concatenate. -/
def processUpdates (timeline : List SceneConfig) (ps : List ℚ) : List ℤ :=
  (ps.map (onUpdateEvents timeline)).flatten

/-- useScrollAnimation.ts lines 29-34: the legacy threshold chain mapping
progress to a 1-based scene number. -/
def legacyScene (progress : ℚ) : ℤ :=
  if progress < 0.2 then 1
  else if progress < 0.5 then 2
  else if progress < 0.7 then 3
  else if progress < 0.9 then 4
  else 5

/-- Mutable camera state of the Three.js camera consumed by the hooks:
position, rotation and field of view. -/
structure CameraState where
  position : ℚ × ℚ × ℚ
  rotation : ℚ × ℚ × ℚ
  fov : ℚ
deriving DecidableEq

/-- The state the hook builds once the camera guard passes: the timeline
configuration it captured and the camera it drives. -/
structure Engine where
  timeline : List SceneConfig
  cam : CameraState
deriving DecidableEq

/-- useCameraController, generalised over the timeline constant it reads
(the source hard-wires SCENE_TIMELINE): the effect body starts with the
guard of line 45, if the camera is null it returns without building
anything; otherwise the timeline is built and the handler installed. -/
def useCameraControllerWith (timeline : List SceneConfig) (camera : Option CameraState) :
    Option Engine :=
  match camera with
  | none => none
  | some c => some { timeline := timeline, cam := c }

/-- useCameraController as shipped: useCameraControllerWith applied to the
SCENE_TIMELINE constant. -/
def useCameraController (camera : Option CameraState) : Option Engine :=
  useCameraControllerWith SCENE_TIMELINE camera

/-- Clamp from part_003 line 42: Math.min(Math.max(value, min), max). -/
def clamp (value min max : ℚ) : ℚ :=
  Min.min (Max.max value min) max

/-- Linear interpolation of one pose channel by fraction e. -/
def lerpQ (a b e : ℚ) : ℚ :=
  a + (b - a) * e

/-- Componentwise linear interpolation of a 3-tuple channel. -/
def interpVec (a b : ℚ × ℚ × ℚ) (e : ℚ) : ℚ × ℚ × ℚ :=
  (lerpQ a.1 b.1 e, lerpQ a.2.1 b.2.1 e, lerpQ a.2.2 b.2.2 e)

/-- Modelled from the spec: the local fraction of the update algorithm,
(p - s.start) / (s.end - s.start) clamped to the unit interval; the
interpolation itself is delegated by the source to GSAP tweens and has no
in-repository code. -/
def localFraction (s : SceneConfig) (p : ℚ) : ℚ :=
  clamp ((p - s.scrollStart) / (s.scrollEnd - s.scrollStart)) 0 1

/-- Modelled from the spec: eased linear interpolation of the camera pose
inside one segment; position and rotation interpolate between the two
keyframes, the field of view only when the end keyframe carries one
(mirroring the conditional fov tween of CameraController.ts lines 100-112,
which tweens from the current camera value). -/
def segmentPose (s : SceneConfig) (ease : ℚ → ℚ) (p : ℚ) (c : CameraState) : CameraState :=
  let e := ease (localFraction s p)
  { position := interpVec s.cameraStart.position s.cameraEnd.position e
  , rotation := interpVec s.cameraStart.rotation s.cameraEnd.rotation e
  , fov := match s.cameraEnd.fov with
           | some fv => lerpQ c.fov fv e
           | none => c.fov }

/-- Modelled from the spec: one progress update applied to the camera;
when a segment resolves under the findIndex predicate the pose is set from
that segment, otherwise the camera is left untouched. easeOf resolves a
GSAP easing name to a shaping function. -/
def stepCam (easeOf : String → ℚ → ℚ) (timeline : List SceneConfig)
    (c : CameraState) (p : ℚ) : CameraState :=
  match timeline.find? (scenePredicate p) with
  | none => c
  | some s => segmentPose s (easeOf s.easing) p c

/-- Running a sequence of progress updates against the optional engine the
hook returned: a null attach does nothing at all; a live engine folds the
camera through stepCam and concatenates the scene-change events. -/
def runUpdates (easeOf : String → ℚ → ℚ) (e : Option Engine) (ps : List ℚ) :
    Option Engine × List ℤ :=
  match e with
  | none => (none, [])
  | some eng =>
      (some { eng with cam := ps.foldl (stepCam easeOf eng.timeline) eng.cam }
      , processUpdates eng.timeline ps)

/-- Easing table of part_003, entry easeInOutCubic. -/
def easeInOutCubic (t : ℚ) : ℚ :=
  if t < 0.5 then 4 * t * t * t else 1 - (-2 * t + 2) ^ 3 / 2

/-- Easing table of part_003, entry easeOutQuart. -/
def easeOutQuart (t : ℚ) : ℚ :=
  1 - (1 - t) ^ 4

/-- Easing table of part_003, entry easeInOutQuint. -/
def easeInOutQuint (t : ℚ) : ℚ :=
  if t < 0.5 then 16 * t * t * t * t * t else 1 - (-2 * t + 2) ^ 5 / 2

/-- The constant c4 of easeOutElastic in part_003. -/
noncomputable def c4 : ℝ :=
  2 * Real.pi / 3

/-- Easing table of part_003, entry easeOutElastic, over the reals:
0 at 0, 1 at 1, and otherwise pow(2, -10 t) * sin((10 t - 0.75) c4) + 1. -/
noncomputable def easeOutElastic (t : ℝ) : ℝ :=
  if t = 0 then 0
  else if t = 1 then 1
  else (2 : ℝ) ^ (-10 * t) * Real.sin ((t * 10 - 0.75) * c4) + 1

/-- Sample camera value used by concrete-input theorems. -/
def sampleCamera : CameraState :=
  { position := (0, 0, 5), rotation := (0, 0, 0), fov := 50 }

/-- A configuration violating the validity invariant of the spec: its only
segment has scrollStart at least scrollEnd. -/
def badConfig : List SceneConfig :=
  [ { id := "bad"
    , name := "Bad"
    , scrollStart := 0.5
    , scrollEnd := 0.3
    , duration := 1
    , cameraStart := { position := (0, 0, 5), rotation := (0, 0, 0), fov := none }
    , cameraEnd := { position := (0, 0, 5), rotation := (0, 0, 0), fov := none }
    , easing := "power1.inOut"
    , description := "invalid" }
  ]

/-- Helper: findIndex returns -1 when no element satisfies the predicate. -/
theorem jsFindIndexFrom_none (pred : α → Bool) (l : List α) (i : ℤ)
    (h : ∀ a ∈ l, pred a = false) : jsFindIndexFrom pred l i = -1 := by
  induction l generalizing i with
  | nil => rfl
  | cons a as ih =>
      simp only [jsFindIndexFrom, h a (List.mem_cons_self a as)]
      exact ih (i + 1) (fun b hb => h b (List.mem_cons_of_mem a hb))

/-- Helper: on the half-open unit interval, exactly one shipped segment
satisfies the findIndex predicate. -/
theorem countP_one (p : ℚ) (h0 : 0 ≤ p) (h1 : p < 1) :
    List.countP (scenePredicate p) SCENE_TIMELINE = 1 := by
  rcases lt_or_le p 0.2 with hA | hA
  · have f1 : ¬ (p ≥ 0.2) := not_le.mpr hA
    have f2 : ¬ (p ≥ 0.5) := by intro hc; exact f1 (by linarith)
    have f3 : ¬ (p ≥ 0.7) := by intro hc; exact f1 (by linarith)
    have f4 : ¬ (p ≥ 0.9) := by intro hc; exact f1 (by linarith)
    simp [List.countP, List.countP.go, SCENE_TIMELINE, scenePredicate, h0, hA, f1, f2, f3, f4]
  · rcases lt_or_le p 0.5 with hB | hB
    · have fA : ¬ (p < 0.2) := not_lt.mpr hA
      have f2 : ¬ (p ≥ 0.5) := not_le.mpr hB
      have f3 : ¬ (p ≥ 0.7) := by intro hc; exact f2 (by linarith)
      have f4 : ¬ (p ≥ 0.9) := by intro hc; exact f2 (by linarith)
      simp [List.countP, List.countP.go, SCENE_TIMELINE, scenePredicate, h0, hA, hB, fA, f2,
        f3, f4]
    · rcases lt_or_le p 0.7 with hC | hC
      · have fA : ¬ (p < 0.2) := not_lt.mpr (by linarith)
        have fB : ¬ (p < 0.5) := not_lt.mpr hB
        have f3 : ¬ (p ≥ 0.7) := not_le.mpr hC
        have f4 : ¬ (p ≥ 0.9) := by intro hc; exact f3 (by linarith)
        simp [List.countP, List.countP.go, SCENE_TIMELINE, scenePredicate, h0, hA, hB, hC, fA,
          fB, f3, f4]
      · rcases lt_or_le p 0.9 with hD | hD
        · have fA : ¬ (p < 0.2) := not_lt.mpr (by linarith)
          have fB : ¬ (p < 0.5) := not_lt.mpr (by linarith)
          have fC : ¬ (p < 0.7) := not_lt.mpr hC
          have f4 : ¬ (p ≥ 0.9) := not_le.mpr hD
          simp [List.countP, List.countP.go, SCENE_TIMELINE, scenePredicate, h0, hA, hB, hC,
            hD, fA, fB, fC, f4]
        · have fA : ¬ (p < 0.2) := not_lt.mpr (by linarith)
          have fB : ¬ (p < 0.5) := not_lt.mpr (by linarith)
          have fC : ¬ (p < 0.7) := not_lt.mpr (by linarith)
          have fD : ¬ (p < 0.9) := not_lt.mpr hD
          have t9 : p < 1.0 := by norm_num; exact h1
          simp [List.countP, List.countP.go, SCENE_TIMELINE, scenePredicate, h0, hA, hB, hC,
            hD, t9, fA, fB, fC, fD]

/-- Helper: easeInOutCubic is monotone on the unit interval. -/
theorem easeInOutCubic_mono (t s : ℚ) (h0 : 0 ≤ t) (hts : t ≤ s) (hs1 : s ≤ 1) :
    easeInOutCubic t ≤ easeInOutCubic s := by
  unfold easeInOutCubic
  rcases lt_or_le t 0.5 with ht | ht <;> rcases lt_or_le s 0.5 with hs | hs
  · rw [if_pos ht, if_pos hs]
    nlinarith [pow_le_pow_left₀ h0 hts 3]
  · rw [if_pos ht, if_neg (not_lt.mpr hs)]
    have h1 : t ^ 3 ≤ (0.5 : ℚ) ^ 3 := pow_le_pow_left₀ h0 (le_of_lt ht) 3
    have hge : (0:ℚ) ≤ -2 * s + 2 := by linarith
    have hle : -2 * s + 2 ≤ 1 := by linarith
    have h2 : (-2 * s + 2) ^ 3 ≤ 1 ^ 3 := pow_le_pow_left₀ hge hle 3
    nlinarith
  · exact absurd (lt_of_le_of_lt (le_trans ht hts) hs) (lt_irrefl _)
  · rw [if_neg (not_lt.mpr ht), if_neg (not_lt.mpr hs)]
    have hge : (0:ℚ) ≤ -2 * s + 2 := by linarith
    have hle : -2 * s + 2 ≤ -2 * t + 2 := by linarith
    have := pow_le_pow_left₀ hge hle 3
    linarith

/-- Helper: easeOutQuart is monotone on the unit interval. -/
theorem easeOutQuart_mono (t s : ℚ) (h0 : 0 ≤ t) (hts : t ≤ s) (hs1 : s ≤ 1) :
    easeOutQuart t ≤ easeOutQuart s := by
  unfold easeOutQuart
  have hge : (0:ℚ) ≤ 1 - s := by linarith
  have hle : 1 - s ≤ 1 - t := by linarith
  have := pow_le_pow_left₀ hge hle 4
  linarith

/-- Helper: easeInOutQuint is monotone on the unit interval. -/
theorem easeInOutQuint_mono (t s : ℚ) (h0 : 0 ≤ t) (hts : t ≤ s) (hs1 : s ≤ 1) :
    easeInOutQuint t ≤ easeInOutQuint s := by
  unfold easeInOutQuint
  rcases lt_or_le t 0.5 with ht | ht <;> rcases lt_or_le s 0.5 with hs | hs
  · rw [if_pos ht, if_pos hs]
    nlinarith [pow_le_pow_left₀ h0 hts 5]
  · rw [if_pos ht, if_neg (not_lt.mpr hs)]
    have h1 : t ^ 5 ≤ (0.5 : ℚ) ^ 5 := pow_le_pow_left₀ h0 (le_of_lt ht) 5
    have hge : (0:ℚ) ≤ -2 * s + 2 := by linarith
    have hle : -2 * s + 2 ≤ 1 := by linarith
    have h2 : (-2 * s + 2) ^ 5 ≤ 1 ^ 5 := pow_le_pow_left₀ hge hle 5
    nlinarith
  · exact absurd (lt_of_le_of_lt (le_trans ht hts) hs) (lt_irrefl _)
  · rw [if_neg (not_lt.mpr ht), if_neg (not_lt.mpr hs)]
    have hge : (0:ℚ) ≤ -2 * s + 2 := by linarith
    have hle : -2 * s + 2 ≤ -2 * t + 2 := by linarith
    have := pow_le_pow_left₀ hge hle 5
    linarith

/-- Helper: endpoint values of the polynomial easings. -/
theorem easeInOutCubic_zero : easeInOutCubic 0 = 0 := by norm_num [easeInOutCubic]

/-- Helper: endpoint values of the polynomial easings. -/
theorem easeInOutCubic_one : easeInOutCubic 1 = 1 := by norm_num [easeInOutCubic]

/-- Helper: endpoint values of the polynomial easings. -/
theorem easeOutQuart_zero : easeOutQuart 0 = 0 := by norm_num [easeOutQuart]

/-- Helper: endpoint values of the polynomial easings. -/
theorem easeOutQuart_one : easeOutQuart 1 = 1 := by norm_num [easeOutQuart]

/-- Helper: endpoint values of the polynomial easings. -/
theorem easeInOutQuint_zero : easeInOutQuint 0 = 0 := by norm_num [easeInOutQuint]

/-- Helper: endpoint values of the polynomial easings. -/
theorem easeInOutQuint_one : easeInOutQuint 1 = 1 := by norm_num [easeInOutQuint]

/-- Helper: easeOutElastic takes its explicit branch value at 0. -/
theorem easeOutElastic_zero : easeOutElastic 0 = 0 := by norm_num [easeOutElastic]

/-- Helper: easeOutElastic takes its explicit branch value at 1. -/
theorem easeOutElastic_one : easeOutElastic 1 = 1 := by norm_num [easeOutElastic]

/-- Claim C1, counterexample: in the code the onUpdate handler of
CameraController.ts invokes onSceneChange on every update that resolves a
segment, with no duplicate suppression: two consecutive updates with the
same progress 0.35 produce two invocations for the same segment, not at
most one. -/
theorem claimC1_counterexample :
    processUpdates SCENE_TIMELINE [0.35, 0.35] = [2, 2] ∧
    ¬ (processUpdates SCENE_TIMELINE [0.35, 0.35]).length ≤ 1 := by
  have h : processUpdates SCENE_TIMELINE [0.35, 0.35] = [2, 2] := by
    norm_num [processUpdates, onUpdateEvents, currentScene, jsFindIndex, jsFindIndexFrom,
      SCENE_TIMELINE, scenePredicate]
  refine ⟨h, ?_⟩
  rw [h]
  norm_num

/-- Claim C1, amended: the engine suppresses nothing; each update is
independent, so two updates with the same progress value emit the single
update event list twice (each list holding at most one scene index, the
same both times since the index is a pure function of the progress value). -/
theorem claimC1_amended (p : ℚ) :
    processUpdates SCENE_TIMELINE [p, p] =
      onUpdateEvents SCENE_TIMELINE p ++ onUpdateEvents SCENE_TIMELINE p ∧
    (onUpdateEvents SCENE_TIMELINE p).length ≤ 1 := by
  constructor
  · simp [processUpdates]
  · unfold onUpdateEvents
    split <;> simp

/-- Witness for claim C1 at progress 0.35. -/
theorem claimC1_witness :
    processUpdates SCENE_TIMELINE [(0.35 : ℚ), 0.35] =
      onUpdateEvents SCENE_TIMELINE 0.35 ++ onUpdateEvents SCENE_TIMELINE 0.35 :=
  (claimC1_amended 0.35).1

/-- Claim C2, counterexample: at progress exactly 1 the findIndex scan of
CameraController.ts matches no segment (the last segment is right-open like
the others), so the scene index 5 is not reported and no scene-change
invocation happens at all. -/
theorem claimC2_counterexample :
    (0:ℚ) ≤ 1 ∧ onUpdateEvents SCENE_TIMELINE 1 = [] ∧
    currentScene SCENE_TIMELINE 1 = -1 := by
  norm_num [onUpdateEvents, currentScene, jsFindIndex, jsFindIndexFrom, SCENE_TIMELINE,
    scenePredicate]

/-- Claim C2, amended: every interior boundary value belongs to the segment
whose range starts there (right-open), and so does 0; but the upper
boundary 1 belongs to no segment: the last segment is right-open too, so an
update at progress 1 resolves nothing and reports no scene index. -/
theorem claimC2_amended :
    onUpdateEvents SCENE_TIMELINE 1 = [] ∧
    onUpdateEvents SCENE_TIMELINE 0 = [1] ∧
    onUpdateEvents SCENE_TIMELINE 0.2 = [2] ∧
    onUpdateEvents SCENE_TIMELINE 0.5 = [3] ∧
    onUpdateEvents SCENE_TIMELINE 0.7 = [4] ∧
    onUpdateEvents SCENE_TIMELINE 0.9 = [5] := by
  norm_num [onUpdateEvents, currentScene, jsFindIndex, jsFindIndexFrom, SCENE_TIMELINE,
    scenePredicate]

/-- Claim C3: the shipped segment with scrollStart 0.2 has scrollEnd 0.5,
start position (0, 0, 5) and end position (0, 0.2, 2.8); at progress 0.35
the local fraction is 0.5 and the linearly eased pose puts the camera at
the midpoint (0, 0.1, 3.9). -/
theorem claimC3 (s : SceneConfig) (hs : s ∈ SCENE_TIMELINE)
    (hstart : s.scrollStart = 0.2) (c : CameraState) :
    s.scrollEnd = 0.5 ∧
    s.cameraStart.position = (0, 0, 5) ∧
    s.cameraEnd.position = (0, 0.2, 2.8) ∧
    localFraction s 0.35 = 1/2 ∧
    (segmentPose s (fun t => t) 0.35 c).position = (0, 0.1, 3.9) := by
  fin_cases hs <;>
    first
      | (exfalso; revert hstart; norm_num; done)
      | norm_num [localFraction, clamp, segmentPose, interpVec, lerpQ]

/-- Witness for claim C3 at the shipped gesture-flow segment. -/
theorem claimC3_witness :
    localFraction (SCENE_TIMELINE.get ⟨1, by norm_num [SCENE_TIMELINE]⟩) 0.35 = 1/2 ∧
    (segmentPose (SCENE_TIMELINE.get ⟨1, by norm_num [SCENE_TIMELINE]⟩) (fun t => t) 0.35
      sampleCamera).position = (0, 0.1, 3.9) := by
  have h := claimC3 (SCENE_TIMELINE.get ⟨1, by norm_num [SCENE_TIMELINE]⟩)
    (SCENE_TIMELINE.get_mem _ _) (by norm_num [SCENE_TIMELINE]) sampleCamera
  exact ⟨h.2.2.2.1, h.2.2.2.2⟩

/-- Claim C4, counterexample: the coverage statement fails at the upper
endpoint: 1 lies in the closed unit interval yet no shipped segment
satisfies the resolution predicate there, since every range is right-open. -/
theorem claimC4_counterexample :
    (0:ℚ) ≤ 1 ∧ (1:ℚ) ≤ 1 ∧ List.countP (scenePredicate 1) SCENE_TIMELINE = 0 := by
  norm_num [List.countP, List.countP.go, SCENE_TIMELINE, scenePredicate]

/-- Claim C4, amended: the shipped timeline starts at 0, ends at 1, each
scrollEnd equals the next scrollStart, and every progress value in the
half-open unit interval resolves exactly one segment; the value 1 itself
resolves none. -/
theorem claimC4_amended :
    (SCENE_TIMELINE.get ⟨0, by norm_num [SCENE_TIMELINE]⟩).scrollStart = 0 ∧
    (SCENE_TIMELINE.get ⟨4, by norm_num [SCENE_TIMELINE]⟩).scrollEnd = 1 ∧
    (∀ i : ℕ, ∀ h : i + 1 < SCENE_TIMELINE.length,
      (SCENE_TIMELINE.get ⟨i, Nat.lt_of_succ_lt h⟩).scrollEnd =
      (SCENE_TIMELINE.get ⟨i + 1, h⟩).scrollStart) ∧
    (∀ p : ℚ, 0 ≤ p → p < 1 → List.countP (scenePredicate p) SCENE_TIMELINE = 1) := by
  refine ⟨by norm_num [SCENE_TIMELINE], by norm_num [SCENE_TIMELINE], ?_, countP_one⟩
  intro i h
  have h5 : SCENE_TIMELINE.length = 5 := by norm_num [SCENE_TIMELINE]
  have h4 : i < 4 := by omega
  interval_cases i <;> norm_num [SCENE_TIMELINE]

/-- Witness for claim C4 at index 0 and progress one half. -/
theorem claimC4_witness :
    (SCENE_TIMELINE.get ⟨0,
        Nat.lt_of_succ_lt (by norm_num [SCENE_TIMELINE])⟩).scrollEnd =
      (SCENE_TIMELINE.get ⟨0 + 1, by norm_num [SCENE_TIMELINE]⟩).scrollStart ∧
    List.countP (scenePredicate (1/2)) SCENE_TIMELINE = 1 :=
  ⟨claimC4_amended.2.2.1 0 (by norm_num [SCENE_TIMELINE]),
   claimC4_amended.2.2.2 (1/2) (by norm_num) (by norm_num)⟩

/-- Claim C5, counterexample: a configuration whose only segment has
scrollStart at least scrollEnd is accepted without any configuration error:
the hook attaches and returns a live engine, and a subsequent update is
silently ignored rather than failing. -/
theorem claimC5_counterexample :
    (∃ s ∈ badConfig, s.scrollEnd ≤ s.scrollStart) ∧
    (useCameraControllerWith badConfig (some sampleCamera)).isSome = true ∧
    runUpdates (fun _ t => t) (useCameraControllerWith badConfig (some sampleCamera)) [0.4] =
      (useCameraControllerWith badConfig (some sampleCamera), []) := by
  refine ⟨?_, rfl, ?_⟩
  · refine ⟨_, List.mem_cons_self _ _, by norm_num [badConfig]⟩
  · norm_num [runUpdates, useCameraControllerWith, processUpdates, onUpdateEvents,
      currentScene, jsFindIndex, jsFindIndexFrom, badConfig, scenePredicate, stepCam,
      List.find?]

/-- Claim C5, amended: the hook performs no construction-time validation at
all: it attaches successfully for every configuration whenever the camera
is present, and a progress value matched by no segment is silently dropped
by the findIndex guard instead of raising anything. -/
theorem claimC5_amended (timeline : List SceneConfig) (c : CameraState) :
    (useCameraControllerWith timeline (some c)).isSome = true ∧
    ∀ p : ℚ, (∀ s ∈ timeline, ¬ (s.scrollStart ≤ p ∧ p < s.scrollEnd)) →
      onUpdateEvents timeline p = [] := by
  refine ⟨rfl, ?_⟩
  intro p hp
  have hfind : currentScene timeline p = -1 := by
    apply jsFindIndexFrom_none
    intro s hs
    have hns := hp s hs
    rcases em (s.scrollStart ≤ p) with hle | hle
    · have hnot : ¬ (p < s.scrollEnd) := fun hlt => hns ⟨hle, hlt⟩
      simp [scenePredicate, hnot]
    · simp [scenePredicate, hle]
  simp [onUpdateEvents, hfind]

/-- Witness for claim C5 at the invalid configuration and progress 0.4. -/
theorem claimC5_witness :
    (useCameraControllerWith badConfig (some sampleCamera)).isSome = true ∧
    onUpdateEvents badConfig 0.4 = [] := by
  have h := claimC5_amended badConfig sampleCamera
  refine ⟨h.1, h.2 0.4 ?_⟩
  intro s hs
  simp only [badConfig, List.mem_singleton] at hs
  subst hs
  norm_num

/-- Claim C6: attaching with a null camera builds nothing and is inert:
the hook returns none, and any subsequent sequence of progress updates
leaves no engine state and emits no scene-change event. -/
theorem claimC6 (timeline : List SceneConfig) (easeOf : String → ℚ → ℚ) (ps : List ℚ) :
    useCameraControllerWith timeline none = none ∧
    runUpdates easeOf (useCameraControllerWith timeline none) ps = (none, []) :=
  ⟨rfl, rfl⟩

/-- Witness for claim C6 on the shipped timeline and one update. -/
theorem claimC6_witness :
    runUpdates (fun _ t => t) (useCameraControllerWith SCENE_TIMELINE none) [0.5] =
      (none, []) :=
  (claimC6 SCENE_TIMELINE (fun _ t => t) [0.5]).2

/-- Claim C7: in the shipped timeline every pair of adjacent segments shares
its boundary keyframe exactly: segment i ends on the keyframe segment i+1
starts on (position, rotation and the absent fov all agree). -/
theorem claimC7 (i : ℕ) (h : i + 1 < SCENE_TIMELINE.length) :
    (SCENE_TIMELINE.get ⟨i, Nat.lt_of_succ_lt h⟩).cameraEnd =
    (SCENE_TIMELINE.get ⟨i + 1, h⟩).cameraStart := by
  have h5 : SCENE_TIMELINE.length = 5 := by norm_num [SCENE_TIMELINE]
  have h4 : i < 4 := by omega
  interval_cases i <;> norm_num [SCENE_TIMELINE]

/-- Witness for claim C7 at the boundary between segments 2 and 3. -/
theorem claimC7_witness :
    (SCENE_TIMELINE.get ⟨1, by norm_num [SCENE_TIMELINE]⟩).cameraEnd =
    (SCENE_TIMELINE.get ⟨2, by norm_num [SCENE_TIMELINE]⟩).cameraStart :=
  claimC7 1 (by norm_num [SCENE_TIMELINE])

/-- Claim C8, counterexample: easeOutElastic does not map the unit interval
into itself and is not monotonic: at 1/8 its value exceeds 1, while at the
larger input 1 it equals 1. -/
theorem claimC8_counterexample :
    ((0:ℝ) ≤ 1/8 ∧ (1/8:ℝ) < 1) ∧ easeOutElastic 1 = 1 ∧
    1 < easeOutElastic (1/8) := by
  refine ⟨by norm_num, easeOutElastic_one, ?_⟩
  have h0 : ((1:ℝ)/8) ≠ 0 := by norm_num
  have h1 : ((1:ℝ)/8) ≠ 1 := by norm_num
  rw [easeOutElastic, if_neg h0, if_neg h1]
  have harg : ((1:ℝ)/8 * 10 - 0.75) * c4 = Real.pi / 3 := by
    rw [c4]; ring_nf
  rw [harg]
  have hsin : 0 < Real.sin (Real.pi / 3) := by
    apply Real.sin_pos_of_pos_of_lt_pi
    · positivity
    · linarith [Real.pi_pos]
  have hpow : (0:ℝ) < (2:ℝ) ^ (-10 * ((1:ℝ)/8)) := Real.rpow_pos_of_pos (by norm_num) _
  nlinarith

/-- Claim C8, amended: easeInOutCubic, easeOutQuart and easeInOutQuint are
monotone maps of the unit interval into itself with value 0 at 0 and 1 at
1; easeOutElastic satisfies the endpoint contract but is neither monotonic
nor bounded by 1 on the unit interval. -/
theorem claimC8_amended :
    (∀ t s : ℚ, 0 ≤ t → t ≤ s → s ≤ 1 → easeInOutCubic t ≤ easeInOutCubic s) ∧
    (∀ t s : ℚ, 0 ≤ t → t ≤ s → s ≤ 1 → easeOutQuart t ≤ easeOutQuart s) ∧
    (∀ t s : ℚ, 0 ≤ t → t ≤ s → s ≤ 1 → easeInOutQuint t ≤ easeInOutQuint s) ∧
    (∀ t : ℚ, 0 ≤ t → t ≤ 1 →
      (0 ≤ easeInOutCubic t ∧ easeInOutCubic t ≤ 1) ∧
      (0 ≤ easeOutQuart t ∧ easeOutQuart t ≤ 1) ∧
      (0 ≤ easeInOutQuint t ∧ easeInOutQuint t ≤ 1)) ∧
    (easeInOutCubic 0 = 0 ∧ easeInOutCubic 1 = 1) ∧
    (easeOutQuart 0 = 0 ∧ easeOutQuart 1 = 1) ∧
    (easeInOutQuint 0 = 0 ∧ easeInOutQuint 1 = 1) ∧
    (easeOutElastic 0 = 0 ∧ easeOutElastic 1 = 1) := by
  refine ⟨easeInOutCubic_mono, easeOutQuart_mono, easeInOutQuint_mono, ?_,
    ⟨easeInOutCubic_zero, easeInOutCubic_one⟩, ⟨easeOutQuart_zero, easeOutQuart_one⟩,
    ⟨easeInOutQuint_zero, easeInOutQuint_one⟩, ⟨easeOutElastic_zero, easeOutElastic_one⟩⟩
  intro t h0 h1
  refine ⟨⟨?_, ?_⟩, ⟨?_, ?_⟩, ⟨?_, ?_⟩⟩
  · have := easeInOutCubic_mono 0 t le_rfl h0 h1
    rw [easeInOutCubic_zero] at this; exact this
  · have := easeInOutCubic_mono t 1 h0 h1 le_rfl
    rw [easeInOutCubic_one] at this; exact this
  · have := easeOutQuart_mono 0 t le_rfl h0 h1
    rw [easeOutQuart_zero] at this; exact this
  · have := easeOutQuart_mono t 1 h0 h1 le_rfl
    rw [easeOutQuart_one] at this; exact this
  · have := easeInOutQuint_mono 0 t le_rfl h0 h1
    rw [easeInOutQuint_zero] at this; exact this
  · have := easeInOutQuint_mono t 1 h0 h1 le_rfl
    rw [easeInOutQuint_one] at this; exact this

/-- Witness for claim C8 at concrete interval points. -/
theorem claimC8_witness :
    easeInOutCubic (1/4) ≤ easeInOutCubic (3/4) ∧
    (0 ≤ easeOutQuart (1/3) ∧ easeOutQuart (1/3) ≤ 1) :=
  ⟨claimC8_amended.1 (1/4) (3/4) (by norm_num) (by norm_num) (by norm_num),
   (claimC8_amended.2.2.2.1 (1/3) (by norm_num) (by norm_num)).2.1⟩

/-- Claim C9: on the half-open unit interval the legacy threshold chain of
useScrollAnimation.ts and the findIndex scan of CameraController.ts agree:
the controller always resolves a segment there, and its 1-based index
equals the legacy scene number. -/
theorem claimC9 (p : ℚ) (h0 : 0 ≤ p) (h1 : p < 1) :
    currentScene SCENE_TIMELINE p ≠ -1 ∧
    currentScene SCENE_TIMELINE p + 1 = legacyScene p := by
  rcases lt_or_le p 0.2 with hA | hA
  · simp [currentScene, jsFindIndex, jsFindIndexFrom, SCENE_TIMELINE, scenePredicate,
      legacyScene, h0, hA]
  · have fA : ¬ (p < 0.2) := not_lt.mpr hA
    rcases lt_or_le p 0.5 with hB | hB
    · simp [currentScene, jsFindIndex, jsFindIndexFrom, SCENE_TIMELINE, scenePredicate,
        legacyScene, h0, hA, hB, fA]
    · have fB : ¬ (p < 0.5) := not_lt.mpr hB
      rcases lt_or_le p 0.7 with hC | hC
      · simp [currentScene, jsFindIndex, jsFindIndexFrom, SCENE_TIMELINE, scenePredicate,
          legacyScene, h0, hA, hB, hC, fA, fB]
      · have fC : ¬ (p < 0.7) := not_lt.mpr hC
        rcases lt_or_le p 0.9 with hD | hD
        · simp [currentScene, jsFindIndex, jsFindIndexFrom, SCENE_TIMELINE, scenePredicate,
            legacyScene, h0, hA, hB, hC, hD, fA, fB, fC]
        · have fD : ¬ (p < 0.9) := not_lt.mpr hD
          have t9 : p < 1.0 := by norm_num; exact h1
          simp [currentScene, jsFindIndex, jsFindIndexFrom, SCENE_TIMELINE, scenePredicate,
            legacyScene, h0, hA, hB, hC, hD, t9, fA, fB, fC, fD]

/-- Witness for claim C9 at progress 0.35. -/
theorem claimC9_witness :
    currentScene SCENE_TIMELINE 0.35 ≠ -1 ∧
    currentScene SCENE_TIMELINE 0.35 + 1 = legacyScene 0.35 :=
  claimC9 0.35 (by norm_num) (by norm_num)

/-- Claim C10: clamp stays inside the interval when the bounds are ordered,
returns the bound that is violated, and is the identity on in-range inputs. -/
theorem claimC10 (value min max : ℚ) (h : min ≤ max) :
    (min ≤ clamp value min max ∧ clamp value min max ≤ max) ∧
    (value < min → clamp value min max = min) ∧
    (max < value → clamp value min max = max) ∧
    (min ≤ value → value ≤ max → clamp value min max = value) := by
  unfold clamp
  refine ⟨⟨le_min (le_max_right _ _) h, min_le_right _ _⟩, ?_, ?_, ?_⟩
  · intro hv
    rw [max_eq_right (le_of_lt hv), min_eq_left h]
  · intro hv
    rw [max_eq_left (le_of_lt (lt_of_le_of_lt h hv)), min_eq_right (le_of_lt hv)]
  · intro h1 h2
    rw [max_eq_left h1, min_eq_left h2]

/-- Witness for claim C10 at value 7 with bounds 2 and 5. -/
theorem claimC10_witness :
    ((2:ℚ) ≤ clamp 7 2 5 ∧ clamp 7 2 5 ≤ 5) ∧ clamp 7 2 5 = 5 :=
  ⟨(claimC10 7 2 5 (by norm_num)).1, (claimC10 7 2 5 (by norm_num)).2.2.1 (by norm_num)⟩
